import Mathlib

/-!
Verification development for the Library Outreach Campaign Tracker
(`src/scripts/library_outreach.py`, class `LibraryOutreach`).

The Python program persists library contacts in a CSV file
(`libraries.csv`), a campaign log in a JSON file (`campaigns.json`) and
per-run CSV reports.  The embedding below models:

* one CSV data row as the structure `Row` (the eleven columns of the
  store, all string-valued, in file order);
* the store file as `StoreFile`: `absent` (no file on disk),
  `emptyFile` (a file that exists but holds not even a header row —
  `os.path.exists` is true for it, `csv.DictReader` yields no rows, and
  `csv.DictWriter` is never given a header to write), or
  `table rows` (header row plus the data rows, which is the only shape
  the program itself ever writes non-trivially);
* `datetime.now()` as an explicit string parameter (`date` / `now`)
  threaded through the state-changing operations;
* a raised, uncaught exception as `none` in an `Option` result
  (`track_contact` raises when the store file is absent, and
  `batch_outreach` would propagate such an exception before writing its
  campaign record or report);
* `str.format` on a template body with its single `{nombre}`
  placeholder as concatenation `bodyPre ++ nombre ++ bodyPost`, where
  `bodyPre`/`bodyPost` are the literal text of the source template
  before and after the placeholder.

Python truthiness matters twice and is modelled explicitly: a filter
argument that is `None` or the empty string is falsy, so
`load_libraries` applies no filter for it (`pyTruthyFilter`).
-/

namespace LibraryOutreach

/-- One data row of `contacts/libraries.csv`, with the column names of the
header row written by `create_library_template`:
`nombre,email,ciudad,pais,region,tipo,idioma_preferido,contactado,fecha_contacto,respuesta,notas`.
`csv.DictReader` presents a row as a dict with exactly these keys, so every
field is always present (possibly as the empty string). -/
structure Row where
  nombre : String
  email : String
  ciudad : String
  pais : String
  region : String
  tipo : String
  idioma_preferido : String
  contactado : String
  fecha_contacto : String
  respuesta : String
  notas : String
  deriving DecidableEq, Repr

/-- The contact-store file `libraries.csv`.  `absent`: the path does not
exist.  `emptyFile`: the path exists but the file is empty (this is what
`track_contact` writes when it read zero data rows: `csv.DictWriter` is
instantiated only when `libraries` is non-empty, so neither header nor
rows are written).  `table rows`: the header row followed by `rows`. -/
inductive StoreFile where
  | absent : StoreFile
  | emptyFile : StoreFile
  | table : List Row → StoreFile
  deriving DecidableEq, Repr

/-- The data rows a `csv.DictReader` yields from the store file: none when
the file is absent (the read raises before yielding) or empty, else the
rows after the header. -/
def storeRows : StoreFile → List Row
  | StoreFile.table rows => rows
  | _ => []

/-- The fixed seed list written by `create_library_template` (the 20
example libraries, header row excluded), verbatim from the source. -/
def seedRows : List Row := [
  ⟨"Biblioteca Nacional de España", "contacto@bne.es", "Madrid", "España", "Europa", "Nacional", "ES", "No", "", "", ""⟩,
  ⟨"Biblioteca Pública Municipal de Madrid", "bibliotecas@madrid.es", "Madrid", "España", "España", "Publica", "ES", "No", "", "", ""⟩,
  ⟨"Biblioteca de Catalunya", "biblioteca@bc.cat", "Barcelona", "España", "España", "Nacional", "ES", "No", "", "", ""⟩,
  ⟨"Biblioteca Pública de Andalucía", "biblioteca@juntadeandalucia.es", "Sevilla", "España", "España", "Publica", "ES", "No", "", "", ""⟩,
  ⟨"Biblioteca Nacional de México", "contacto@bnm.unam.mx", "Ciudad de México", "México", "Latinoamérica", "Nacional", "ES", "No", "", "", ""⟩,
  ⟨"Biblioteca Nacional de Argentina", "info@bn.gov.ar", "Buenos Aires", "Argentina", "Latinoamérica", "Nacional", "ES", "No", "", "", ""⟩,
  ⟨"Biblioteca Nacional de Colombia", "contacto@bn.gov.co", "Bogotá", "Colombia", "Latinoamérica", "Nacional", "ES", "No", "", "", ""⟩,
  ⟨"Biblioteca de Santiago", "biblioteca@santiago.cl", "Santiago", "Chile", "Latinoamérica", "Publica", "ES", "No", "", "", ""⟩,
  ⟨"New York Public Library", "acquisitions@nypl.org", "New York", "USA", "Norte America", "Publica", "EN", "No", "", "", ""⟩,
  ⟨"Los Angeles Public Library", "collections@lapl.org", "Los Angeles", "USA", "Norte America", "Publica", "EN", "No", "", "", ""⟩,
  ⟨"Miami-Dade Public Library", "acquisitions@mdpls.org", "Miami", "USA", "Norte America", "Publica", "ES", "No", "", "", "Hispanic community"⟩,
  ⟨"Houston Public Library", "collections@houstontx.gov", "Houston", "USA", "Norte America", "Publica", "EN", "No", "", "", ""⟩,
  ⟨"British Library", "acquisitions@bl.uk", "London", "UK", "Europa", "Nacional", "EN", "No", "", "", ""⟩,
  ⟨"London Public Library", "info@londonlibrary.co.uk", "London", "UK", "Europa", "Publica", "EN", "No", "", "", ""⟩,
  ⟨"Bibliothèque Nationale de France", "contact@bnf.fr", "Paris", "Francia", "Europa", "Nacional", "FR", "No", "", "", ""⟩,
  ⟨"Bibliothèque Publique de Paris", "bibliotheque@paris.fr", "Paris", "Francia", "Europa", "Publica", "FR", "No", "", "", ""⟩,
  ⟨"Biblioteca Nazionale Centrale di Roma", "bncrm@beniculturali.it", "Roma", "Italia", "Europa", "Nacional", "IT", "No", "", "", ""⟩,
  ⟨"Biblioteca Nazionale di Milano", "bnm@beniculturali.it", "Milán", "Italia", "Europa", "Nacional", "IT", "No", "", "", ""⟩,
  ⟨"Toronto Public Library", "collections@tpl.ca", "Toronto", "Canadá", "Norte America", "Publica", "EN", "No", "", "", ""⟩,
  ⟨"Vancouver Public Library", "info@vpl.ca", "Vancouver", "Canadá", "Norte America", "Publica", "EN", "No", "", "", ""⟩]

/-- `LibraryOutreach.create_library_template`: `if os.path.exists(...):
return` — existence check only, so an existing file (even an empty one) is
left untouched; an absent file is written with header plus `seedRows`. -/
def create_library_template : StoreFile → StoreFile
  | StoreFile.absent => StoreFile.table seedRows
  | s => s

/-- Python truthiness applied to a filter argument, as in
`if region and row.get(\x27region\x27) != region: continue` (the source
uses single quotes): the row is skipped only when the filter is truthy
(not `None`, not `""`) and the field differs.  This returns `true` when
the row is kept by this one filter. -/
def pyTruthyFilter (filter? : Option String) (field : String) : Bool :=
  match filter? with
  | none => true
  | some s => if s = "" then true else field == s

/-- The conjunction of the three row filters of
`LibraryOutreach.load_libraries`: region, preferred language, and (when
`only_new`) excluding rows whose `contactado` field is the literal `"Si"`
that `track_contact` writes. -/
def keepRow (region language : Option String) (only_new : Bool) (r : Row) : Bool :=
  pyTruthyFilter region r.region &&
  pyTruthyFilter language r.idioma_preferido &&
  !(only_new && r.contactado == "Si")

/-- `LibraryOutreach.load_libraries`: first calls
`create_library_template` (a side effect on the store file, returned as
the first component), then reads the rows and filters them in file order.
A read failure is caught inside the function and yields the empty list,
which `storeRows` already gives for `absent`. -/
def load_libraries (store : StoreFile) (region language : Option String)
    (only_new : Bool) : StoreFile × List Row :=
  let s := create_library_template store
  (s, (storeRows s).filter (keepRow region language only_new))

/-- The row update loop of `LibraryOutreach.track_contact`: the first row
whose `email` equals `library_email` gets `contactado := "Si"`,
`fecha_contacto := date`, `respuesta := status`, `notas := notes`
(then `break`); all other rows are unchanged. -/
def updateRows (rows : List Row) (library_email status notes date : String) : List Row :=
  match rows with
  | [] => []
  | lib :: rest =>
    if lib.email = library_email then
      { lib with contactado := "Si", fecha_contacto := date,
                 respuesta := status, notas := notes } :: rest
    else
      lib :: updateRows rest library_email status notes date

/-- `LibraryOutreach.track_contact`: reads all rows, updates the first
match in place, rewrites the whole file.  On an absent file the initial
`open` raises (`none`).  The header is written only under
`if libraries:`, so a store with zero data rows is rewritten as a
completely empty file. -/
def track_contact (store : StoreFile) (library_email status notes date : String) :
    Option StoreFile :=
  match store with
  | StoreFile.absent => none
  | StoreFile.emptyFile => some StoreFile.emptyFile
  | StoreFile.table rows =>
    some (if rows.isEmpty then StoreFile.emptyFile
          else StoreFile.table (updateRows rows library_email status notes date))

/-- A `(subject, body)` template of `self.templates`, with the body split
at its single `{nombre}` placeholder: the source body is
`bodyPre ++ "{nombre}" ++ bodyPost` and `str.format` substitutes the
recipient name at the split point. -/
structure EmailTemplate where
  subject : String
  bodyPre : String
  bodyPost : String
  deriving DecidableEq, Repr

/-- `self.templates["EN"]`, verbatim from the source. -/
def templateEN : EmailTemplate :=
  { subject := "New Spanish Author Catalog - Francisco Angulo de Lafuente - Available for Library Acquisition",
    bodyPre := "Dear ",
    bodyPost := ",

My name is [Agent Name], literary agent for Francisco Angulo de Lafuente, a Spanish author with over 55 published works in multiple languages.

I am writing to inform you that the author's catalog is available for library acquisition through major distribution platforms.

**ABOUT THE AUTHOR:**
Francisco Angulo de Lafuente (Madrid, 1976) is a versatile author whose works span from science fiction and spy thrillers to illustrated children's literature and writing guides. A fan of fantasy cinema and literature, he follows Isaac Asimov and Stephen King.

**FEATURED TITLES:**

📚 **For Adults:**
• \"ApocalypsAI: The Day After AGI\" - Science fiction about artificial intelligence
• \"Commander Valentina Smirnova\" - International spy thriller series
• \"Things you shouldn't do if you want to be a writer\" - Essential guide for writers
• \"Eco-fuel-FA (ECOFA)\" - Sustainability and energy solutions

📖 **For Young Readers:**
• \"The Mutant Jellyfish Invasion\" - Illustrated adventure novel
• \"Company Nº12\" - Youth adventures (available in French)

🌍 **LANGUAGES AVAILABLE:**
• Spanish (primary)
• English
• French
• Italian
• Portuguese
• Japanese

**DISTRIBUTION PLATFORMS:**
✓ OverDrive / Libby
✓ hoopla Digital
✓ cloudLibrary (Bibliotheca)
✓ Odilo
✓ EBSCOhost
✓ Mackin (for schools)

All titles are available in ebook format, with many also in audiobook and print editions.

**TO ACQUIRE:**
You can purchase titles through your regular distributor or contact me directly for institutional pricing and licensing information.

Attached you will find the complete catalog with ISBNs, descriptions, and BISAC metadata.

I remain at your disposal for any questions or to schedule a virtual author presentation for your patrons.

Best regards,

[Agent Name]
Literary Agent - Francisco Angulo de Lafuente
Email: agent@franciscoangulo.com
Web: www.franciscoangulo.com

---

P.S.: We offer special discounts for complete collection purchases and are open to participating in your library's reading programs." }

/-- `self.templates["ES"]`, verbatim from the source. -/
def templateES : EmailTemplate :=
  { subject := "Nuevo Catálogo de Autor Español - Francisco Angulo de Lafuente - Disponible para Bibliotecas",
    bodyPre := "Estimado/a ",
    bodyPost := ",

Mi nombre es [Agent Name], representante literario de Francisco Angulo de Lafuente, autor español con más de 55 obras publicadas en múltiples idiomas.

Me pongo en contacto para informarle que el catálogo del autor está disponible para adquisición bibliotecaria a través de las principales plataformas de distribución.

**SOBRE EL AUTOR:**
Francisco Angulo de Lafuente (Madrid, 1976) es un autor versátil cuyas obras abarcan desde ciencia ficción y thrillers de espionaje hasta literatura infantil ilustrada y guías para escritores. Aficionado al cine de fantasía y la literatura, es seguidor de Isaac Asimov y Stephen King.

**CATÁLOGO DESTACADO:**

📚 **Para Adultos:**
• \"ApocalypsAI: The Day After AGI\" - Ciencia ficción sobre inteligencia artificial
• \"Comandante Valentina Smirnova\" - Serie thriller de espionaje internacional
• \"Things you shouldn't do if you want to be a writer\" - Guía esencial para escritores
• \"Eco-fuel-FA (ECOFA)\" - Sostenibilidad y soluciones energéticas

📖 **Para Jóvenes y Niños:**
• \"La Invasión de las Medusas Mutantes\" - Novela ilustrada de aventuras
• \"Company Nº12\" - Aventuras juveniles (disponible en francés)

🌍 **IDIOMAS DISPONIBLES:**
• Español (principal)
• Inglés
• Francés
• Italiano
• Portugués
• Japonés

**PLATAFORMAS DE DISTRIBUCIÓN:**
✓ OverDrive / Libby
✓ hoopla Digital
✓ cloudLibrary (Bibliotheca)
✓ Odilo
✓ EBSCOhost
✓ Mackin (para escuelas)

Todos los títulos están disponibles en formato ebook y muchos también en audiolibro y edición impresa.

**PARA ADQUIRIR:**
Puede adquirir los títulos a través de su distribuidor habitual o contactarme directamente para obtener información adicional sobre precios institucionales y licencias.

Adjunto encontrará el catálogo completo con ISBNs, descripciones y metadatos BISAC.

Quedo a su disposición para cualquier consulta o para programar una presentación virtual del autor para sus usuarios.

Un saludo cordial,

[Nombre del Agente]
Literary Agent - Francisco Angulo de Lafuente
Email: agent@franciscoangulo.com
Web: www.franciscoangulo.com

---

P.D.: Ofrecemos descuentos especiales para compras de colecciones completas y estamos abiertos a participar en programas de lectura de su biblioteca." }

/-- `self.templates["FR"]`, verbatim from the source. -/
def templateFR : EmailTemplate :=
  { subject := "Nouveau Catalogue d'Auteur Espagnol - Francisco Angulo de Lafuente - Disponible pour les Bibliothèques",
    bodyPre := "Cher/Chère ",
    bodyPost := ",

Je m'appelle [Agent Name], agent littéraire de Francisco Angulo de Lafuente, auteur espagnol avec plus de 55 œuvres publiées en plusieurs langues.

Je vous contacte pour vous informer que le catalogue de l'auteur est disponible pour l'acquisition bibliothécaire via les principales plateformes de distribution.

**CATÉGORIES PRINCIPALES:**
• Science-fiction sur l'intelligence artificielle
• Thriller d'espionnage international
• Littérature jeunesse illustrée
• Guides d'écriture

**LANGUES DISPONIBLES:**
Espagnol, Anglais, Français, Italien, Portugais, Japonais

**PLATEFORMES:**
OverDrive/Libby, hoopla, cloudLibrary, Odilo, EBSCOhost

Cordialement,
[Agent Name]
Agent Littéraire - Francisco Angulo de Lafuente" }

/-- `self.templates.get(language, self.templates["ES"])`: the dict has the
keys `"ES"`, `"EN"`, `"FR"`; any other code falls back to Spanish. -/
def templates_get (language : String) : EmailTemplate :=
  if language = "ES" then templateES
  else if language = "EN" then templateEN
  else if language = "FR" then templateFR
  else templateES

/-- The dict `generate_email` returns: subject, rendered body, and the
language the template was resolved for. -/
structure EmailData where
  subject : String
  body : String
  language : String
  deriving DecidableEq, Repr

/-- `LibraryOutreach.generate_email`.  `if not language:` is Python
truthiness, so both `None` and `""` fall back to the row's
`idioma_preferido`.  `library.get("nombre", "Bibliotecario/a")` defaults
only when the key `nombre` is missing from the dict; a `csv.DictReader`
row always carries the key (possibly with an empty-string value), so for
store rows the name used is exactly `library.nombre`, the placeholder
default being dead code on that path. -/
def generate_email (library : Row) (language : Option String) : EmailData :=
  let lang :=
    match language with
    | none => library.idioma_preferido
    | some s => if s = "" then library.idioma_preferido else s
  let template := templates_get lang
  let nombre := library.nombre
  { subject := template.subject,
    body := template.bodyPre ++ nombre ++ template.bodyPost,
    language := lang }

/-- One element of `campaign_results` in `batch_outreach` (the per-contact
`result` dict; `fecha` is `datetime.now().isoformat()`). -/
structure OutcomeEntry where
  biblioteca : String
  email : String
  ciudad : String
  pais : String
  idioma : String
  asunto : String
  estado : String
  fecha : String
  deriving DecidableEq, Repr

/-- The `campaign_data` dict appended to `campaigns.json` (`id` is the
timestamp-derived string `%Y%m%d_%H%M%S`; both it and `fecha` are
abstracted to the run's `now` parameter). -/
structure Campaign where
  id : String
  fecha : String
  region : Option String
  idioma : Option String
  total_enviados : Nat
  modo : String
  resultados : List OutcomeEntry
  deriving DecidableEq, Repr

/-- `LibraryOutreach.save_campaign`: reads the existing list (empty when
the file is absent), appends the new record, rewrites the file. -/
def save_campaign (log : List Campaign) (campaign_data : Campaign) : List Campaign :=
  log ++ [campaign_data]

/-- The per-contact `result` dict built inside the `batch_outreach` loop. -/
def outcome_entry (library : Row) (language : Option String) (dry_run : Bool)
    (now : String) : OutcomeEntry :=
  let email_data := generate_email library language
  { biblioteca := library.nombre,
    email := library.email,
    ciudad := library.ciudad,
    pais := library.pais,
    idioma := email_data.language,
    asunto := email_data.subject,
    estado := if dry_run then "simulado" else "enviado",
    fecha := now }

/-- What one `batch_outreach` call returns together with its side effects:
the returned status and message, `total_enviados`, the per-run report file
(`none` when no report file was written, `some entries` when one was
written with those entries), and the final contact store and campaign log.
The early empty-filter return carries `report := none` and the untouched
log. -/
structure BatchResult where
  status : String
  message : String
  total_enviados : Nat
  report : Option (List OutcomeEntry)
  store : StoreFile
  log : List Campaign
  deriving DecidableEq, Repr

/-- `LibraryOutreach.batch_outreach`.  Loads eligible contacts with
`only_new=True`; when none match, returns the `no_libraries` result
before any write.  Otherwise processes the first `max_emails` contacts:
builds an outcome entry per contact and, when not `dry_run`, calls
`track_contact(email, "enviado")` per contact (the per-contact store
rewrites, folded left over the snapshot list).  Afterwards appends the
campaign record to the log and writes the report file.  A raised
exception (absent store during `track_contact`) propagates as `none`,
reaching neither the log append nor the report write. -/
def batch_outreach (store : StoreFile) (log : List Campaign)
    (region language : Option String) (max_emails : Nat) (dry_run : Bool)
    (now : String) : Option BatchResult :=
  let loaded := load_libraries store region language true
  let store1 := loaded.1
  let libraries := loaded.2
  if libraries.isEmpty then
    some { status := "no_libraries",
           message := "No hay bibliotecas disponibles con los filtros seleccionados",
           total_enviados := 0,
           report := none,
           store := store1,
           log := log }
  else
    let processed := libraries.take max_emails
    let campaign_results := processed.map (fun lib => outcome_entry lib language dry_run now)
    let store2 :=
      if dry_run then some store1
      else processed.foldlM
        (fun s lib => track_contact s lib.email "enviado" "" now) store1
    match store2 with
    | none => none
    | some finalStore =>
      let campaign_data : Campaign :=
        { id := now,
          fecha := now,
          region := region,
          idioma := language,
          total_enviados := campaign_results.length,
          modo := if dry_run then "simulacion" else "real",
          resultados := campaign_results }
      some { status := "success",
             message := "",
             total_enviados := campaign_results.length,
             report := some campaign_results,
             store := finalStore,
             log := save_campaign log campaign_data }

/-- The `load` filter as the specification words it (refinement reference,
written from the spec, not from the source): every supplied filter value
is exact-matched, case-sensitively, against the row's field — including a
supplied empty string — the filters are AND-combined, and
`excludeContacted` removes the rows whose `contactado` field carries the
serialization `track_contact` writes for a contacted row. -/
def specKeepRow (region language : Option String) (excludeContacted : Bool)
    (r : Row) : Bool :=
  (match region with
   | none => true
   | some s => r.region == s) &&
  (match language with
   | none => true
   | some s => r.idioma_preferido == s) &&
  !(excludeContacted && r.contactado == "Si")

/-- The first seed row (Biblioteca Nacional de España), used as a concrete
store row in witnesses and counterexamples. -/
def demoRow : Row :=
  ⟨"Biblioteca Nacional de España", "contacto@bne.es", "Madrid", "España",
   "Europa", "Nacional", "ES", "No", "", "", ""⟩

end LibraryOutreach

namespace LibraryOutreach

theorem updateRows_length (rows : List Row) (e st nt d : String) :
    (updateRows rows e st nt d).length = rows.length := by
  induction rows with
  | nil => rfl
  | cons lib rest ih =>
    by_cases h : lib.email = e
    · simp [updateRows, h]
    · simp [updateRows, h, ih]

theorem updateRows_no_match (rows : List Row) (e st nt d : String)
    (h : ∀ r ∈ rows, r.email ≠ e) : updateRows rows e st nt d = rows := by
  induction rows with
  | nil => rfl
  | cons lib rest ih =>
    have h1 : lib.email ≠ e := h lib (List.mem_cons_self _ _)
    simp [updateRows, h1, ih (fun r hr => h r (List.mem_cons_of_mem _ hr))]

theorem updateRows_idem (rows : List Row) (e st nt d₁ d₂ : String) :
    updateRows (updateRows rows e st nt d₁) e st nt d₂
      = updateRows rows e st nt d₂ := by
  induction rows with
  | nil => rfl
  | cons lib rest ih =>
    by_cases h : lib.email = e
    · simp [updateRows, h]
    · simp [updateRows, h, ih]

theorem updateRows_find?_contacted (rows : List Row) (e st nt d : String)
    (h : e ∈ rows.map Row.email) :
    ((updateRows rows e st nt d).find? (fun r => r.email == e)).map Row.contactado
      = some "Si" := by
  induction rows with
  | nil => simp at h
  | cons lib rest ih =>
    by_cases he : lib.email = e
    · simp [updateRows, he, List.find?]
    · have h2 : e ∈ rest.map Row.email := by
        simp only [List.map_cons, List.mem_cons] at h
        rcases h with h' | h'
        · exact absurd h'.symm he
        · exact h'
      have hbe : (lib.email == e) = false := by simpa using he
      simp [updateRows, he, List.find?, hbe, ih h2]

theorem keepRow_eq_spec (region language : Option String) (excl : Bool) (r : Row)
    (hr : ∀ s, region = some s → s ≠ "")
    (hl : ∀ s, language = some s → s ≠ "") :
    keepRow region language excl r = specKeepRow region language excl r := by
  unfold keepRow specKeepRow pyTruthyFilter
  cases region with
  | none =>
    cases language with
    | none => rfl
    | some s => simp [hl s rfl]
  | some t =>
    cases language with
    | none => simp [hr t rfl]
    | some s => simp [hr t rfl, hl s rfl]

end LibraryOutreach

namespace LibraryOutreach

/-- Claim C1 (amended): for every store content and every filter
combination whose supplied region and language values are non-empty
strings, `load` returns exactly the subsequence of rows satisfying all
supplied filters conjunctively under exact case-sensitive string match
(the spec-worded filter `specKeepRow`), preserving the original store
file order; absent filter fields match every row.  The supplied
empty-string filter values excluded here behave as absent filters
(claim C9), not as exact matches. -/
theorem load_exact_match_filters (rows : List Row) (region language : Option String)
    (excl : Bool) (hr : ∀ s, region = some s → s ≠ "")
    (hl : ∀ s, language = some s → s ≠ "") :
    (load_libraries (StoreFile.table rows) region language excl).2
      = List.filter (specKeepRow region language excl) rows
    ∧ List.Sublist ((load_libraries (StoreFile.table rows) region language excl).2) rows := by
  have hfilter : (load_libraries (StoreFile.table rows) region language excl).2
      = rows.filter (keepRow region language excl) := rfl
  constructor
  · rw [hfilter]
    exact List.filter_congr (fun r _ => keepRow_eq_spec region language excl r hr hl)
  · rw [hfilter]
    exact List.filter_sublist rows

/-- Witness for C1: a concrete one-row store and the concrete filter
combination region = "Europa", language absent, excludeContacted true. -/
theorem load_exact_match_filters_witness :
    (load_libraries (StoreFile.table [demoRow]) (some "Europa") none true).2
      = List.filter (specKeepRow (some "Europa") none true) [demoRow] :=
  (load_exact_match_filters [demoRow] (some "Europa") none true
    (fun s hs => by cases hs; decide) (fun s hs => Option.noConfusion hs)).1

/-- Counterexample to C1 as stated: with a supplied empty-string region
filter the code keeps every row (Python truthiness treats `""` as no
filter), while exact case-sensitive matching of the supplied value
would keep none of the rows whose region is non-empty. -/
theorem load_empty_string_exact_counterexample :
    (load_libraries (StoreFile.table [demoRow]) (some "") none false).2
      ≠ List.filter (specKeepRow (some "") none false) [demoRow]
    ∧ (load_libraries (StoreFile.table [demoRow]) (some "") none false).2 = [demoRow]
    ∧ List.filter (specKeepRow (some "") none false) [demoRow] = [] := by
  decide

/-- Claim C9: at the public interface of `load_libraries`, a supplied
filter value equal to the empty string behaves identically to an absent
filter — for every store content, filtering with `some ""` returns the
same sequence as filtering with `none`, for the region filter and for
the language filter alike. -/
theorem load_empty_string_filter_absent :
    (∀ (rows : List Row) (language : Option String) (excl : Bool),
      (load_libraries (StoreFile.table rows) (some "") language excl).2
        = (load_libraries (StoreFile.table rows) none language excl).2)
    ∧ (∀ (rows : List Row) (region : Option String) (excl : Bool),
      (load_libraries (StoreFile.table rows) region (some "") excl).2
        = (load_libraries (StoreFile.table rows) region none excl).2) := by
  constructor
  · intro rows language excl
    exact List.filter_congr (fun r _ => by simp [keepRow, pyTruthyFilter])
  · intro rows region excl
    exact List.filter_congr (fun r _ => by simp [keepRow, pyTruthyFilter])

/-- Claim C3: for every store content and every email matching no row,
`track_contact` is a silent no-op — it returns without an error
(`some`) and the data rows of the store are unchanged, every row and
every field. -/
theorem track_contact_missing_email_noop (rows : List Row) (e st nt d : String)
    (h : ∀ r ∈ rows, r.email ≠ e) :
    Option.map storeRows (track_contact (StoreFile.table rows) e st nt d)
      = some rows := by
  cases rows with
  | nil => rfl
  | cons lib rest =>
    simp [track_contact, updateRows_no_match _ _ _ _ _ h, storeRows]

/-- Witness for C3: a concrete one-row store and an email that matches
no row. -/
theorem track_contact_missing_email_noop_witness :
    Option.map storeRows
        (track_contact (StoreFile.table [demoRow]) "nobody@example.com" "enviado" "" "d")
      = some [demoRow] :=
  track_contact_missing_email_noop [demoRow] "nobody@example.com" "enviado" "" "d"
    (by decide)

/-- Claim C4: `create_library_template` is idempotent and never destroys
existing data — an absent store is created with the fixed seed list
(seed emails pairwise distinct, every `contactado` defaulting to "No"),
an existing store of any content is left untouched, and a second call
never duplicates, overwrites or alters any row. -/
theorem create_library_template_spec :
    create_library_template StoreFile.absent = StoreFile.table seedRows
    ∧ (seedRows.map Row.email).Nodup
    ∧ (∀ r ∈ seedRows, r.contactado = "No")
    ∧ (∀ rows : List Row,
        create_library_template (StoreFile.table rows) = StoreFile.table rows)
    ∧ (∀ s : StoreFile,
        create_library_template (create_library_template s) = create_library_template s) := by
  refine ⟨rfl, by decide, by decide, fun rows => rfl, fun s => ?_⟩
  cases s <;> rfl

/-- Witness for C4: the no-op on a concrete existing store and the seed
default of a concrete seed row. -/
theorem create_library_template_spec_witness :
    create_library_template (StoreFile.table [demoRow]) = StoreFile.table [demoRow]
    ∧ demoRow.contactado = "No" :=
  ⟨create_library_template_spec.2.2.2.1 [demoRow],
   create_library_template_spec.2.2.1 demoRow (by decide)⟩

/-- Claim C6: for every store containing a row with the given email,
calling `track_contact` twice in succession with the same email, outcome
and notes yields the same final store as calling it once, except that
`fecha_contacto` carries the second call's date (last write wins): the
two-call composite at dates d₁ then d₂ equals the single call at d₂. -/
theorem track_contact_idempotent (rows : List Row) (e st nt d₁ d₂ : String)
    (h : e ∈ rows.map Row.email) :
    (track_contact (StoreFile.table rows) e st nt d₁).bind
        (fun s => track_contact s e st nt d₂)
      = track_contact (StoreFile.table rows) e st nt d₂ := by
  cases rows with
  | nil => simp at h
  | cons lib rest =>
    have hne : (updateRows (lib :: rest) e st nt d₁) ≠ [] := by
      intro hu
      have hlen := updateRows_length (lib :: rest) e st nt d₁
      rw [hu] at hlen
      simp at hlen
    cases hu : updateRows (lib :: rest) e st nt d₁ with
    | nil => exact absurd hu hne
    | cons a b =>
      have key : updateRows (a :: b) e st nt d₂ = updateRows (lib :: rest) e st nt d₂ := by
        rw [← hu, updateRows_idem]
      simp [track_contact, hu, key]

/-- Witness for C6: two consecutive calls on a concrete one-row store
with the row's email. -/
theorem track_contact_idempotent_witness :
    (track_contact (StoreFile.table [demoRow]) "contacto@bne.es" "enviado" "" "d1").bind
        (fun s => track_contact s "contacto@bne.es" "enviado" "" "d2")
      = track_contact (StoreFile.table [demoRow]) "contacto@bne.es" "enviado" "" "d2" :=
  track_contact_idempotent [demoRow] "contacto@bne.es" "enviado" "" "d1" "d2" (by decide)

/-- Claim C10: `track_contact` preserves the store file's header row and
full row set exactly when the store holds at least one data row (the
rewrite keeps the header and the updated rows, of unchanged count); on a
store holding a header but zero data rows it rewrites the file as
completely empty, losing the header row. -/
theorem track_contact_header_loss :
    (∀ e st nt d : String,
      track_contact (StoreFile.table []) e st nt d = some StoreFile.emptyFile)
    ∧ StoreFile.emptyFile ≠ StoreFile.table []
    ∧ (∀ (rows : List Row) (e st nt d : String), rows ≠ [] →
        track_contact (StoreFile.table rows) e st nt d
          = some (StoreFile.table (updateRows rows e st nt d))
        ∧ (updateRows rows e st nt d).length = rows.length) := by
  refine ⟨fun e st nt d => rfl, by decide, ?_⟩
  intro rows e st nt d h
  cases rows with
  | nil => exact absurd rfl h
  | cons lib rest =>
    exact ⟨by simp [track_contact], updateRows_length _ _ _ _ _⟩

/-- Witness for C10: the empty-store header loss and the header-keeping
rewrite on a concrete one-row store. -/
theorem track_contact_header_loss_witness :
    track_contact (StoreFile.table []) "e" "s" "n" "d" = some StoreFile.emptyFile
    ∧ track_contact (StoreFile.table [demoRow]) "e" "s" "n" "d"
      = some (StoreFile.table (updateRows [demoRow] "e" "s" "n" "d")) :=
  ⟨track_contact_header_loss.1 "e" "s" "n" "d",
   (track_contact_header_loss.2.2 [demoRow] "e" "s" "n" "d" (by decide)).1⟩

end LibraryOutreach

namespace LibraryOutreach

/-- Claim C7 (amended): in the contact store the `contactado` field is
serialized as exactly the literal strings "Si" and "No" — every seed row
written by `create_library_template` carries "No", and the update loop
of `track_contact` sets the first row matching the email to "Si". -/
theorem contacted_serialized_si :
    (∀ r ∈ seedRows, r.contactado = "No")
    ∧ (∀ (rows : List Row) (e st nt d : String), e ∈ rows.map Row.email →
        ((updateRows rows e st nt d).find? (fun r => r.email == e)).map Row.contactado
          = some "Si") :=
  ⟨by decide, fun rows e st nt d h => updateRows_find?_contacted rows e st nt d h⟩

/-- Witness for C7: the first seed row carries "No", and updating a
concrete one-row store sets its `contactado` field to "Si". -/
theorem contacted_serialized_si_witness :
    demoRow.contactado = "No"
    ∧ ((updateRows [demoRow] "contacto@bne.es" "enviado" "" "d").find?
        (fun r => r.email == "contacto@bne.es")).map Row.contactado = some "Si" :=
  ⟨contacted_serialized_si.1 demoRow (by decide),
   contacted_serialized_si.2 [demoRow] "contacto@bne.es" "enviado" "" "d" (by decide)⟩

/-- The first seed row after a concrete `track_contact` update, exactly
as the code rewrites it (field `contactado` set to "Si"). -/
def demoRowSi : Row := { demoRow with contactado := "Si", fecha_contacto := "2026-01-01", respuesta := "enviado", notas := "" }

/-- The row claim C7 would demand from the same update: `contactado` set
to the literal "Yes". -/
def demoRowYes : Row := { demoRow with contactado := "Yes", fecha_contacto := "2026-01-01", respuesta := "enviado", notas := "" }

/-- Counterexample to C7 as stated: `track_contact` on a found row writes
the literal "Si", not "Yes" — on a concrete one-row store the rewritten
row carries `contactado = "Si"` and differs from the row the claim
demands, which would carry "Yes". -/
theorem contacted_yes_counterexample :
    Option.map storeRows
        (track_contact (StoreFile.table [demoRow]) "contacto@bne.es" "enviado" "" "2026-01-01")
      = some [demoRowSi]
    ∧ Option.map storeRows
        (track_contact (StoreFile.table [demoRow]) "contacto@bne.es" "enviado" "" "2026-01-01")
      ≠ some [demoRowYes] := by
  decide

/-- A store row whose recipient-name field is present but empty, as a
`csv.DictReader` yields for a CSV line with an empty first cell. -/
def emptyNameRow : Row := { demoRow with nombre := "" }

/-- Claim C8 fails on the code: the `"Bibliotecario/a"` default of
`library.get("nombre", ...)` fires only when the key is missing from the
dict, never when the value is the empty string, and rows read from the
store CSV always carry the key.  At the failing input — a row whose name
field is empty — the rendered body substitutes the empty string at the
placeholder and differs from the body the claim demands, which would
carry the generic placeholder. -/
theorem generate_email_empty_name_not_placeholder :
    (generate_email emptyNameRow none).body
      = templateES.bodyPre ++ "" ++ templateES.bodyPost
    ∧ (generate_email emptyNameRow none).body
      ≠ templateES.bodyPre ++ "Bibliotecario/a" ++ templateES.bodyPost := by
  refine ⟨rfl, ?_⟩
  intro hEq
  have hEq' : templateES.bodyPre ++ "" ++ templateES.bodyPost
      = templateES.bodyPre ++ "Bibliotecario/a" ++ templateES.bodyPost := hEq
  have h1 := congrArg String.length hEq'
  simp only [String.length_append] at h1
  have h0 : ("" : String).length = 0 := rfl
  have h15 : ("Bibliotecario/a" : String).length = 15 := rfl
  rw [h0, h15] at h1
  omega

/-- Claim C2: whenever the filtered eligible set is empty,
`batch_outreach` returns the distinct "no eligible contacts" result and
performs no writes — the campaign log is unchanged and no report file is
written — and whenever eligible contacts exist, any returned result
carries the distinct "success" status instead. -/
theorem batch_no_eligible_no_writes :
    (∀ (store : StoreFile) (log : List Campaign) (region language : Option String)
        (max_emails : Nat) (dry_run : Bool) (now : String),
      (storeRows (create_library_template store)).filter (keepRow region language true)
          = [] →
      batch_outreach store log region language max_emails dry_run now
        = some { status := "no_libraries",
                 message := "No hay bibliotecas disponibles con los filtros seleccionados",
                 total_enviados := 0,
                 report := none,
                 store := create_library_template store,
                 log := log })
    ∧ (∀ (store : StoreFile) (log : List Campaign) (region language : Option String)
        (max_emails : Nat) (dry_run : Bool) (now : String) (r : BatchResult),
      (storeRows (create_library_template store)).filter (keepRow region language true)
          ≠ [] →
      batch_outreach store log region language max_emails dry_run now = some r →
      r.status = "success" ∧ r.status ≠ "no_libraries") := by
  constructor
  · intro store log region language max_emails dry_run now h
    unfold batch_outreach load_libraries
    simp [h]
  · intro store log region language max_emails dry_run now r h hr
    unfold batch_outreach load_libraries at hr
    simp [h] at hr
    split at hr
    · exact absurd hr (by simp)
    · have he := Option.some_inj.mp hr
      have hs : r.status = "success" := by rw [← he]
      exact ⟨hs, by rw [hs]; decide⟩

/-- Witness for C2: a concrete zero-row store gives the concrete
"no eligible contacts" result, and the result of a concrete eligible run
carries the "success" status. -/
theorem batch_no_eligible_no_writes_witness :
    batch_outreach (StoreFile.table []) [] none none 5 true "t"
      = some { status := "no_libraries",
               message := "No hay bibliotecas disponibles con los filtros seleccionados",
               total_enviados := 0,
               report := none,
               store := StoreFile.table [],
               log := [] }
    ∧ ({ status := "success", message := "", total_enviados := 1,
         report := some [outcome_entry demoRow none true "t"],
         store := StoreFile.table [demoRow],
         log := [{ id := "t", fecha := "t", region := none, idioma := none,
                   total_enviados := 1, modo := "simulacion",
                   resultados := [outcome_entry demoRow none true "t"] }] } : BatchResult).status
      = "success" := by
  constructor
  · exact batch_no_eligible_no_writes.1 (StoreFile.table []) [] none none 5 true "t" rfl
  · exact (batch_no_eligible_no_writes.2 (StoreFile.table [demoRow]) [] none none 5 true "t"
      _ (by decide) (by rfl)).1

/-- Claim C5: for every store content and every filter combination, a dry
run of `batch_outreach` leaves the contact store unchanged — no
`track_contact` call is made, so every row keeps its `contactado`,
`fecha_contacto`, `respuesta` and `notas` fields — even though, whenever
eligible contacts exist, outcome entries are computed and a report file
and a campaign-log entry are written. -/
theorem batch_dry_run_preserves_store (rows : List Row) (log : List Campaign)
    (region language : Option String) (max_emails : Nat) (now : String) :
    Option.map BatchResult.store
        (batch_outreach (StoreFile.table rows) log region language max_emails true now)
      = some (StoreFile.table rows)
    ∧ (rows.filter (keepRow region language true) ≠ [] →
        Option.map (fun r : BatchResult => r.report.isSome)
            (batch_outreach (StoreFile.table rows) log region language max_emails true now)
          = some true
        ∧ Option.map (fun r : BatchResult => r.log.length)
            (batch_outreach (StoreFile.table rows) log region language max_emails true now)
          = some (log.length + 1)) := by
  by_cases h : rows.filter (keepRow region language true) = []
  · refine ⟨?_, fun hc => absurd h hc⟩
    unfold batch_outreach load_libraries
    simp [h, create_library_template, storeRows]
  · refine ⟨?_, fun _ => ⟨?_, ?_⟩⟩ <;>
    · unfold batch_outreach load_libraries
      simp [h, create_library_template, storeRows, save_campaign]

/-- Witness for C5: a concrete dry run over a one-row store. -/
theorem batch_dry_run_preserves_store_witness :
    Option.map BatchResult.store
        (batch_outreach (StoreFile.table [demoRow]) [] none none 5 true "t")
      = some (StoreFile.table [demoRow])
    ∧ Option.map (fun r : BatchResult => r.report.isSome)
        (batch_outreach (StoreFile.table [demoRow]) [] none none 5 true "t")
      = some true :=
  ⟨(batch_dry_run_preserves_store [demoRow] [] none none 5 "t").1,
   ((batch_dry_run_preserves_store [demoRow] [] none none 5 "t").2 (by decide)).1⟩

end LibraryOutreach
